import Mathlib

/-!
Shallow embedding of `src/ssh-manager.ts` (class `SSHConnectionManager`) of
the mcp-ssh-sre repository.

The underlying transport (the `NodeSSH` library) is modelled as an oracle:
a pair of functions giving the outcome of the k-th `ssh.connect` call and
the k-th `ssh.execCommand` call.  The manager's mutable fields
(`connected`, `reconnectAttempts`) together with the call counters and an
event log (connect attempts, command executions, backoff sleeps, dispose)
form the explicit state threaded through every operation.

JavaScript thrown values are modelled by `JsValue`: either an `Error`
carrying a message (`instanceof Error` holds) or some other value with its
string representation.  JS falsiness of `string | undefined` values
(`undefined` or `""`) is modelled by `truthy` on `Option String`, and
`String.prototype.includes` by `strIncludes`.
-/

namespace SSHManager

/-- JS `smaller.isPrefixOf larger` on character lists (used to build
`String.prototype.includes`). -/
def charsPre : List Char → List Char → Bool
  | [], _ => true
  | _ :: _, [] => false
  | p :: ps, c :: cs => p == c && charsPre ps cs

/-- Does `pat` occur as a contiguous run inside the list? -/
def charsHas (pat : List Char) : List Char → Bool
  | [] => charsPre pat []
  | c :: cs => charsPre pat (c :: cs) || charsHas pat cs

/-- Model of JS `s.includes(pat)`. -/
def strIncludes (s pat : String) : Bool :=
  charsHas pat.toList s.toList

/-- A JS thrown value: an `Error` with a message, or any other value with
its `String(...)` representation. -/
inductive JsValue where
  | error (msg : String)
  | other (str : String)
deriving DecidableEq

/-- Model of `error instanceof Error ? error.message : String(error)`. -/
def errString : JsValue → String
  | JsValue.error m => m
  | JsValue.other r => r

/-- Model of `error instanceof Error && error.message.includes("connection")`
(ssh-manager.ts line 113). -/
def isConnErr : JsValue → Bool
  | JsValue.error m => strIncludes m "connection"
  | JsValue.other _ => false

/-- JS truthiness of a `string | undefined` value: `undefined` and `""` are
falsy, every other string is truthy. -/
def truthy : Option String → Bool
  | none => false
  | some s => !s.isEmpty

/-- The stored connection configuration (`this.config`). -/
structure Config where
  host : String
  port : Nat
  username : String
  privateKeyPath : Option String
  password : Option String
deriving DecidableEq

/-- Which credential `connect()` puts into `connectionConfig`
(ssh-manager.ts lines 62-66). -/
inductive AuthMethod where
  | key (path : String)
  | password (pw : String)
  | noAuth
deriving DecidableEq

/-- `connect()` builds `connectionConfig`: `privateKeyPath` when truthy,
else `password` when truthy, else neither. -/
def authOf (c : Config) : AuthMethod :=
  if truthy c.privateKeyPath then AuthMethod.key (c.privateKeyPath.getD "")
  else if truthy c.password then AuthMethod.password (c.password.getD "")
  else AuthMethod.noAuth

/-- The manager's own mutable fields. -/
structure Manager where
  config : Config
  connected : Bool
  reconnectAttempts : Nat
deriving DecidableEq

/-- `private maxReconnectAttempts: number = 5`. -/
def maxReconnectAttempts : Nat := 5

/-- `private baseBackoffMs: number = 1000`. -/
def baseBackoffMs : Nat := 1000

/-- The process environment keys the constructor reads.  `SSH_PORT` is
modelled as the already-parsed number when the variable is set and
non-empty (`none` covers unset or empty, which the source's
`process.env.SSH_PORT ? parseInt(...) : 22` treats as absent). -/
structure Env where
  SSH_HOST : Option String
  SSH_PORT : Option Nat
  SSH_USERNAME : Option String
  SSH_PRIVATE_KEY_PATH : Option String
  SSH_PASSWORD : Option String

/-- The constructor (ssh-manager.ts lines 22-49): validates the
environment and stores the configuration; it performs no transport
activity (it does not mention the transport oracle at all).  Failures are
the thrown `Error` messages (the ConfigurationError kind). -/
def mkManager (env : Env) : Except String Manager :=
  let port := env.SSH_PORT.getD 22
  if !truthy env.SSH_HOST then
    Except.error "SSH_HOST environment variable is required"
  else if !truthy env.SSH_USERNAME then
    Except.error "SSH_USERNAME environment variable is required"
  else if !truthy env.SSH_PRIVATE_KEY_PATH && !truthy env.SSH_PASSWORD then
    Except.error
      "Either SSH_PRIVATE_KEY_PATH or SSH_PASSWORD environment variable is required"
  else
    Except.ok
      { config :=
          { host := env.SSH_HOST.getD ""
            port := port
            username := env.SSH_USERNAME.getD ""
            privateKeyPath := env.SSH_PRIVATE_KEY_PATH
            password := env.SSH_PASSWORD }
        connected := false
        reconnectAttempts := 0 }

/-- Outcome of one underlying `ssh.execCommand` call: a result record
`{stdout, stderr, code}` (with `code` possibly `null`), or a thrown value. -/
inductive ExecOutcome where
  | ok (stdout stderr : String) (code : Option Int)
  | thrown (e : JsValue)

/-- The transport oracle: outcome of the k-th `ssh.connect` call
(`none` = success, `some e` = throws `e`) and of the k-th
`ssh.execCommand` call, counted separately, 0-indexed. -/
structure Transport where
  connectOutcome : Nat → Option JsValue
  execOutcome : Nat → ExecOutcome

/-- Observable events, in order. -/
inductive Event where
  | sshConnect (auth : AuthMethod)
  | sshExec (cmd : String)
  | sleep (ms : Nat)
  | dispose
deriving DecidableEq

/-- Full state: manager fields plus transport call counters and event log. -/
structure S where
  mgr : Manager
  connects : Nat
  execs : Nat
  log : List Event
deriving DecidableEq

/-- `connect()` (ssh-manager.ts lines 54-76): one underlying
`ssh.connect` with the configured credential; on success set
`connected = true` and `reconnectAttempts = 0`; on failure set
`connected = false` and throw the wrapping ConnectionError. -/
def connect (T : Transport) (s : S) : Except JsValue Unit × S :=
  match T.connectOutcome s.connects with
  | none =>
      (Except.ok (),
       { s with
           mgr := { s.mgr with connected := true, reconnectAttempts := 0 }
           connects := s.connects + 1
           log := s.log ++ [Event.sshConnect (authOf s.mgr.config)] })
  | some e =>
      (Except.error
        (JsValue.error ("Failed to connect to SSH server: " ++ errString e)),
       { s with
           mgr := { s.mgr with connected := false }
           connects := s.connects + 1
           log := s.log ++ [Event.sshConnect (authOf s.mgr.config)] })

/-- `reconnect()` (ssh-manager.ts lines 81-93): fail at the attempt limit,
otherwise increment the counter, sleep the exponential backoff, and call
`connect()` once. -/
def reconnect (T : Transport) (s : S) : Except JsValue Unit × S :=
  if s.mgr.reconnectAttempts ≥ maxReconnectAttempts then
    (Except.error
      (JsValue.error
        ("Failed to reconnect after " ++ toString maxReconnectAttempts ++ " attempts")),
     s)
  else
    connect T
      { s with
          mgr := { s.mgr with reconnectAttempts := s.mgr.reconnectAttempts + 1 }
          log := s.log ++
            [Event.sleep (baseBackoffMs * 2 ^ (s.mgr.reconnectAttempts + 1 - 1))] }

/-- The result triple returned by `executeCommand`. -/
structure CmdResult where
  stdout : String
  stderr : String
  exitCode : Int
deriving DecidableEq

/-- `{ stdout: result.stdout, stderr: result.stderr, exitCode: result.code ?? 0 }`. -/
def mkResult (stdout stderr : String) (code : Option Int) : CmdResult :=
  ⟨stdout, stderr, code.getD 0⟩

/-- One underlying `ssh.execCommand(command)` call. -/
def execRaw (T : Transport) (cmd : String) (s : S) : ExecOutcome × S :=
  (T.execOutcome s.execs,
   { s with execs := s.execs + 1, log := s.log ++ [Event.sshExec cmd] })

/-- The `try` block of `executeCommand` (ssh-manager.ts lines 99-110):
lazy connect when not connected, then one execution, returning the triple. -/
def execBody (T : Transport) (cmd : String) (s : S) : Except JsValue CmdResult × S :=
  match (if s.mgr.connected then (Except.ok (), s) else connect T s) with
  | (Except.error e, s1) => (Except.error e, s1)
  | (Except.ok _, s1) =>
      match execRaw T cmd s1 with
      | (ExecOutcome.ok out err code, s2) => (Except.ok (mkResult out err code), s2)
      | (ExecOutcome.thrown e, s2) => (Except.error e, s2)

/-- The `catch` block of `executeCommand` (ssh-manager.ts lines 111-126):
a connection-classified error sets `connected = false`, reconnects, and
re-issues the command once (its own failures propagate raw); any other
error is re-thrown wrapped as "Failed to execute command: ...". -/
def catchHandler (T : Transport) (cmd : String) (e : JsValue) (s : S) :
    Except JsValue CmdResult × S :=
  if isConnErr e then
    match reconnect T { s with mgr := { s.mgr with connected := false } } with
    | (Except.error re, s2) => (Except.error re, s2)
    | (Except.ok _, s2) =>
        match execRaw T cmd s2 with
        | (ExecOutcome.ok out err code, s3) => (Except.ok (mkResult out err code), s3)
        | (ExecOutcome.thrown e2, s3) => (Except.error e2, s3)
  else
    (Except.error (JsValue.error ("Failed to execute command: " ++ errString e)), s)

/-- `executeCommand(command)` (ssh-manager.ts lines 98-127). -/
def executeCommand (T : Transport) (cmd : String) (s : S) :
    Except JsValue CmdResult × S :=
  match execBody T cmd s with
  | (Except.ok r, s1) => (Except.ok r, s1)
  | (Except.error e, s1) => catchHandler T cmd e s1

/-- `isConnected()` (ssh-manager.ts lines 132-134). -/
def isConnected (s : S) : Bool :=
  s.mgr.connected

/-- `disconnect()` (ssh-manager.ts lines 139-145): dispose the transport
only when connected; always total, never throws. -/
def disconnect (s : S) : S :=
  if s.mgr.connected then
    { s with
        mgr := { s.mgr with connected := false }
        log := s.log ++ [Event.dispose] }
  else s

/-- The public operations, for reachability statements. -/
inductive Op where
  | doConnect
  | doReconnect
  | doExec (cmd : String)
  | doDisconnect

/-- State effect of one operation (results discarded). -/
def applyOp (T : Transport) (s : S) : Op → S
  | Op.doConnect => (connect T s).2
  | Op.doReconnect => (reconnect T s).2
  | Op.doExec cmd => (executeCommand T cmd s).2
  | Op.doDisconnect => disconnect s

/-- Run a sequence of operations from a state. -/
def run (T : Transport) (s : S) : List Op → S
  | [] => s
  | op :: ops => run T (applyOp T s op) ops

/-- The state right after construction. -/
def init (m : Manager) : S :=
  { mgr := m, connects := 0, execs := 0, log := [] }

/-- How many times `cmd` was issued to the transport in a log. -/
def execCount (cmd : String) (l : List Event) : Nat :=
  (l.filter fun e =>
    match e with
    | Event.sshExec c => c == cmd
    | _ => false).length

/-! Concrete fixtures used by witnesses. -/

/-- A valid configuration with key-based auth. -/
def cfgA : Config :=
  { host := "h", port := 22, username := "u"
    privateKeyPath := some "/k", password := none }

/-- A valid environment (Scenario A of the spec). -/
def envA : Env :=
  { SSH_HOST := some "h", SSH_PORT := none, SSH_USERNAME := some "u"
    SSH_PRIVATE_KEY_PATH := some "/k", SSH_PASSWORD := none }

/-- The manager `mkManager envA` builds. -/
def mA : Manager :=
  { config := cfgA, connected := false, reconnectAttempts := 0 }

/-- A connected state with the fixture configuration. -/
def sConn : S :=
  { mgr := { config := cfgA, connected := true, reconnectAttempts := 0 }
    connects := 0, execs := 0, log := [] }

/-- A disconnected state with the fixture configuration. -/
def sDis : S :=
  { mgr := { config := cfgA, connected := false, reconnectAttempts := 0 }
    connects := 0, execs := 0, log := [] }

/-- A connected state that already saw three reconnect attempts. -/
def sAtt3 : S :=
  { mgr := { config := cfgA, connected := false, reconnectAttempts := 3 }
    connects := 0, execs := 0, log := [] }

/-- A transport whose calls all succeed. -/
def Tok : Transport :=
  { connectOutcome := fun _ => none
    execOutcome := fun _ => ExecOutcome.ok "up" "" (some 0) }

/-! Helper lemmas. -/

/-- `connect` appends exactly one connect event, whatever the outcome. -/
theorem connect_log (T : Transport) (s : S) :
    (connect T s).2.log = s.log ++ [Event.sshConnect (authOf s.mgr.config)] := by
  unfold connect
  cases h : T.connectOutcome s.connects <;> simp [h]

/-- `connect` makes exactly one underlying connect call and no execution. -/
theorem connect_counts (T : Transport) (s : S) :
    (connect T s).2.connects = s.connects + 1 ∧ (connect T s).2.execs = s.execs := by
  unfold connect
  cases h : T.connectOutcome s.connects <;> simp [h]

/-- `connect` leaves the configuration untouched. -/
theorem connect_config (T : Transport) (s : S) :
    (connect T s).2.mgr.config = s.mgr.config := by
  unfold connect
  cases h : T.connectOutcome s.connects <;> simp [h]

/-- `connect` never increases the reconnect counter. -/
theorem connect_attempts_le (T : Transport) (s : S) :
    (connect T s).2.mgr.reconnectAttempts ≤ s.mgr.reconnectAttempts := by
  unfold connect
  cases h : T.connectOutcome s.connects <;> simp [h]

/-- Reduction of `errString` on an `Error` value. -/
theorem errString_error (m : String) : errString (JsValue.error m) = m :=
  rfl

/-- `execRaw` appends exactly one execution event. -/
theorem execRaw_log (T : Transport) (cmd : String) (s : S) :
    (execRaw T cmd s).2.log = s.log ++ [Event.sshExec cmd] :=
  rfl

/-- `reconnect` only appends to the event log. -/
theorem reconnect_log_mono (T : Transport) (s : S) :
    ∃ t, (reconnect T s).2.log = s.log ++ t := by
  unfold reconnect
  by_cases h5 : s.mgr.reconnectAttempts ≥ maxReconnectAttempts
  · rw [if_pos h5]
    exact ⟨[], by simp⟩
  · rw [if_neg h5]
    refine ⟨[Event.sleep (baseBackoffMs * 2 ^ (s.mgr.reconnectAttempts + 1 - 1)),
             Event.sshConnect (authOf s.mgr.config)], ?_⟩
    rw [connect_log]
    simp

/-- `catchHandler` only appends to the event log. -/
theorem catchHandler_log_mono (T : Transport) (cmd : String) (e : JsValue) (s : S) :
    ∃ t, (catchHandler T cmd e s).2.log = s.log ++ t := by
  unfold catchHandler
  by_cases hc : isConnErr e
  · rw [if_pos hc]
    rcases hr : reconnect T { s with mgr := { s.mgr with connected := false } }
      with ⟨res, s2⟩
    obtain ⟨t1, ht1⟩ :=
      reconnect_log_mono T { s with mgr := { s.mgr with connected := false } }
    rw [hr] at ht1
    cases res with
    | error re => exact ⟨t1, ht1⟩
    | ok u =>
        have ht1' : s2.log = s.log ++ t1 := by simpa using ht1
        cases hx : T.execOutcome s2.execs <;>
          exact ⟨t1 ++ [Event.sshExec cmd], by simp [execRaw, hx, ht1']⟩
  · rw [if_neg hc]
    exact ⟨[], by simp⟩

/-! Claim theorems. -/

/-- Claim C4: construction fails, before any transport activity
(`mkManager` does not mention the transport oracle), with a
ConfigurationError exactly when the host is missing, the username is
missing, or both the private-key path and the password are missing
("missing" meaning unset or empty, the source's JS falsiness test); on
success the stored configuration uses port 22 when no port was supplied. -/
theorem mkManager_validates (env : Env) :
    ((∃ msg, mkManager env = Except.error msg) ↔
      (truthy env.SSH_HOST = false ∨ truthy env.SSH_USERNAME = false ∨
        (truthy env.SSH_PRIVATE_KEY_PATH = false ∧ truthy env.SSH_PASSWORD = false)))
    ∧ (∀ m, mkManager env = Except.ok m →
        (env.SSH_PORT = none → m.config.port = 22) ∧
        m.config.port = env.SSH_PORT.getD 22) := by
  refine ⟨?_, ?_⟩
  · cases hH : truthy env.SSH_HOST <;>
      cases hU : truthy env.SSH_USERNAME <;>
        cases hK : truthy env.SSH_PRIVATE_KEY_PATH <;>
          cases hP : truthy env.SSH_PASSWORD <;>
            simp_all [mkManager]
  · intro m hm
    simp only [mkManager] at hm
    split at hm
    · cases hm
    · split at hm
      · cases hm
      · split at hm
        · cases hm
        · cases hm
          exact ⟨fun h => by simp [h], rfl⟩

/-- Claim C4 witness: Scenario A succeeds and defaults the port to 22. -/
theorem mkManager_validates_witness : mA.config.port = 22 :=
  ((mkManager_validates envA).2 mA rfl).1 rfl

/-- Claim C5: `connect()` on success sets `connected = true` and resets
`reconnectAttempts` to 0 whatever its prior value; on failure it sets
`connected = false` and raises a ConnectionError wrapping the underlying
cause's message. -/
theorem connect_spec (T : Transport) (s : S) :
    (T.connectOutcome s.connects = none →
      (connect T s).1 = Except.ok () ∧
      (connect T s).2.mgr.connected = true ∧
      (connect T s).2.mgr.reconnectAttempts = 0)
    ∧ (∀ e, T.connectOutcome s.connects = some e →
      (connect T s).1 =
        Except.error (JsValue.error ("Failed to connect to SSH server: " ++ errString e)) ∧
      (connect T s).2.mgr.connected = false) := by
  constructor
  · intro h
    simp [connect, h]
  · intro e h
    simp [connect, h]

/-- Claim C5 witness: a successful connect from three prior reconnect
attempts resets the counter to 0 and marks the state connected. -/
theorem connect_spec_witness :
    (connect Tok sAtt3).1 = Except.ok () ∧
    (connect Tok sAtt3).2.mgr.connected = true ∧
    (connect Tok sAtt3).2.mgr.reconnectAttempts = 0 :=
  (connect_spec Tok sAtt3).1 rfl

/-- Claim C7: `disconnect()` is total (it returns a state, never a
failure), always leaves `connected = false`, is idempotent, and is a
no-op when already disconnected. -/
theorem disconnect_spec (s : S) :
    isConnected (disconnect s) = false
    ∧ disconnect (disconnect s) = disconnect s
    ∧ (isConnected s = false → disconnect s = s) := by
  unfold isConnected disconnect
  cases h : s.mgr.connected <;> simp [h]

/-- Claim C7 witness: disconnecting an already-disconnected state is a
no-op. -/
theorem disconnect_spec_witness : disconnect sDis = sDis :=
  (disconnect_spec sDis).2.2 rfl

/-- Claim C3: `reconnect()` at the attempt limit fails immediately with
the RetryExhaustedError naming 5, leaving the state untouched (no sleep,
no connect); below the limit it sleeps exactly `1000 * 2 ^ (N - 1)` ms
(where N is the incremented counter) and then makes exactly one connect
call, the counter ending at 0 on connect success and at N on failure. -/
theorem reconnect_spec (T : Transport) (s : S) :
    (s.mgr.reconnectAttempts ≥ maxReconnectAttempts →
      reconnect T s =
        (Except.error (JsValue.error "Failed to reconnect after 5 attempts"), s))
    ∧ (s.mgr.reconnectAttempts < maxReconnectAttempts →
      (reconnect T s).2.connects = s.connects + 1
      ∧ (reconnect T s).2.log =
          s.log ++ [Event.sleep (baseBackoffMs * 2 ^ s.mgr.reconnectAttempts),
                    Event.sshConnect (authOf s.mgr.config)]
      ∧ (reconnect T s).2.mgr.reconnectAttempts =
          (if T.connectOutcome s.connects = none then 0
           else s.mgr.reconnectAttempts + 1)) := by
  constructor
  · intro h
    unfold reconnect
    rw [if_pos h]
    exact rfl
  · intro h
    have hn := not_le.mpr h
    unfold reconnect
    rw [if_neg hn]
    unfold connect
    cases hc : T.connectOutcome s.connects <;> simp [hc]

/-- Claim C3 witness: from 3 prior attempts, reconnect sleeps 8000 ms
(the 4th attempt) and makes one connect call. -/
theorem reconnect_spec_witness :
    (reconnect Tok sAtt3).2.connects = 1
    ∧ (reconnect Tok sAtt3).2.log =
        [Event.sleep 8000, Event.sshConnect (AuthMethod.key "/k")]
    ∧ (reconnect Tok sAtt3).2.mgr.reconnectAttempts = 0 := by
  have h := (reconnect_spec Tok sAtt3).2 (by decide)
  simpa using h

/-- Claim C9: `connect()` logs a transport call whose credential is
`authOf` of the stored configuration; that credential is the private key
whenever a key path is configured (truthy), even when a password is also
present, and the password only when no key path is set. -/
theorem connect_auth_preference (T : Transport) (s : S) :
    (connect T s).2.log = s.log ++ [Event.sshConnect (authOf s.mgr.config)]
    ∧ (truthy s.mgr.config.privateKeyPath = true →
        authOf s.mgr.config = AuthMethod.key (s.mgr.config.privateKeyPath.getD ""))
    ∧ (truthy s.mgr.config.privateKeyPath = false →
        truthy s.mgr.config.password = true →
        authOf s.mgr.config = AuthMethod.password (s.mgr.config.password.getD "")) := by
  refine ⟨connect_log T s, ?_, ?_⟩
  · intro h
    simp [authOf, h]
  · intro h1 h2
    simp [authOf, h1, h2]

/-- A connected state configured with both a key path and a password. -/
def sBoth : S :=
  { mgr :=
      { config :=
          { host := "h", port := 22, username := "u"
            privateKeyPath := some "/k", password := some "pw" }
        connected := true, reconnectAttempts := 0 }
    connects := 0, execs := 0, log := [] }

/-- Claim C9 witness: with both credentials configured, the key is used. -/
theorem connect_auth_preference_witness :
    authOf sBoth.mgr.config = AuthMethod.key "/k" :=
  (connect_auth_preference Tok sBoth).2.1 rfl

/-- Claim C6: when the transport execution succeeds (whether the manager
was already connected or the lazy connect succeeded first),
`executeCommand` returns the transport's triple as-is — any exit code,
zero or not, is returned as data, and a missing code defaults to 0. -/
theorem executeCommand_success (T : Transport) (cmd : String) (s : S)
    (out err : String) (code : Option Int)
    (hpre : s.mgr.connected = true ∨
      (s.mgr.connected = false ∧ T.connectOutcome s.connects = none))
    (hexec : T.execOutcome s.execs = ExecOutcome.ok out err code) :
    (executeCommand T cmd s).1 =
      Except.ok { stdout := out, stderr := err, exitCode := code.getD 0 } := by
  rcases hpre with h | ⟨h, hc⟩
  · simp [executeCommand, execBody, execRaw, mkResult, h, hexec]
  · simp [executeCommand, execBody, execRaw, connect, mkResult, h, hc, hexec]

/-- A transport whose execution reports a nonzero exit code. -/
def Texit7 : Transport :=
  { connectOutcome := fun _ => none
    execOutcome := fun _ => ExecOutcome.ok "o" "e" (some 7) }

/-- A transport whose execution reports no exit code. -/
def TnoCode : Transport :=
  { connectOutcome := fun _ => none
    execOutcome := fun _ => ExecOutcome.ok "o" "e" none }

/-- Claim C6 witness: exit code 7 is returned as data, and a missing code
comes back as 0. -/
theorem executeCommand_success_witness :
    (executeCommand Texit7 "c" sConn).1 =
      Except.ok { stdout := "o", stderr := "e", exitCode := 7 }
    ∧ (executeCommand TnoCode "c" sConn).1 =
      Except.ok { stdout := "o", stderr := "e", exitCode := 0 } :=
  ⟨executeCommand_success Texit7 "c" sConn "o" "e" (some 7) (Or.inl rfl) rfl,
   executeCommand_success TnoCode "c" sConn "o" "e" none (Or.inl rfl) rfl⟩

/-- Claim C8: a transport failure not classified as connection-related
(its message does not contain "connection") makes exactly one execution
attempt — no reconnect, no further connect call, no sleep — and is
propagated wrapped as an ExecutionError preserving the original cause's
message. -/
theorem executeCommand_no_retry (T : Transport) (cmd : String) (s : S) (e : JsValue)
    (hconn : s.mgr.connected = true)
    (hexec : T.execOutcome s.execs = ExecOutcome.thrown e)
    (hnc : isConnErr e = false) :
    (executeCommand T cmd s).1 =
      Except.error (JsValue.error ("Failed to execute command: " ++ errString e))
    ∧ (executeCommand T cmd s).2.execs = s.execs + 1
    ∧ (executeCommand T cmd s).2.connects = s.connects
    ∧ (executeCommand T cmd s).2.log = s.log ++ [Event.sshExec cmd] := by
  refine ⟨?_, ?_, ?_, ?_⟩ <;>
    simp [executeCommand, execBody, execRaw, catchHandler, hconn, hexec, hnc]

/-- A transport whose execution throws a non-connection failure. -/
def Tbad : Transport :=
  { connectOutcome := fun _ => none
    execOutcome := fun _ => ExecOutcome.thrown (JsValue.error "command not found") }

/-- Counting executions distributes over log concatenation. -/
theorem execCount_append (cmd : String) (l1 l2 : List Event) :
    execCount cmd (l1 ++ l2) = execCount cmd l1 + execCount cmd l2 := by
  simp [execCount, List.filter_append]

/-- A log holding one execution of `cmd` counts once. -/
theorem execCount_exec_self (cmd : String) :
    execCount cmd [Event.sshExec cmd] = 1 := by
  simp [execCount]

/-- A sleep event counts no execution. -/
theorem execCount_sleep (cmd : String) (ms : Nat) :
    execCount cmd [Event.sleep ms] = 0 := by
  simp [execCount]

/-- A connect event counts no execution. -/
theorem execCount_connect (cmd : String) (a : AuthMethod) :
    execCount cmd [Event.sshConnect a] = 0 := by
  simp [execCount]

/-- Claim C8 witness: a "command not found" failure is wrapped and
propagated after a single attempt. -/
theorem executeCommand_no_retry_witness :
    (executeCommand Tbad "c" sConn).1 =
      Except.error (JsValue.error "Failed to execute command: command not found")
    ∧ (executeCommand Tbad "c" sConn).2.execs = 1
    ∧ (executeCommand Tbad "c" sConn).2.connects = 0
    ∧ (executeCommand Tbad "c" sConn).2.log = [Event.sshExec "c"] :=
  executeCommand_no_retry Tbad "c" sConn (JsValue.error "command not found")
    rfl rfl (by decide)

/-- Claim C1: when the transport execution fails with a
connection-classified failure and the subsequent reconnect succeeds (the
counter is below the limit and the reconnect's connect call succeeds),
`executeCommand` issues the command exactly twice in total and finishes
with the second attempt's result, or propagates the second attempt's
failure raw — never a third attempt. -/
theorem executeCommand_retry_once (T : Transport) (cmd : String) (s : S) (e : JsValue)
    (hpre : s.mgr.connected = true ∨
      (s.mgr.connected = false ∧ T.connectOutcome s.connects = none))
    (hexec : T.execOutcome s.execs = ExecOutcome.thrown e)
    (hce : isConnErr e = true)
    (hlim : s.mgr.reconnectAttempts < maxReconnectAttempts)
    (hrc : T.connectOutcome
      (if s.mgr.connected then s.connects else s.connects + 1) = none) :
    (executeCommand T cmd s).2.execs = s.execs + 2
    ∧ execCount cmd (executeCommand T cmd s).2.log = execCount cmd s.log + 2
    ∧ ((∃ out err code, T.execOutcome (s.execs + 1) = ExecOutcome.ok out err code ∧
          (executeCommand T cmd s).1 = Except.ok (mkResult out err code)) ∨
       (∃ e2, T.execOutcome (s.execs + 1) = ExecOutcome.thrown e2 ∧
          (executeCommand T cmd s).1 = Except.error e2)) := by
  have hn : ¬ s.mgr.reconnectAttempts ≥ maxReconnectAttempts := not_le.mpr hlim
  rcases hpre with h | ⟨h, hc⟩
  · simp only [h, if_true] at hrc
    cases h2 : T.execOutcome (s.execs + 1) with
    | ok out err code =>
        refine ⟨?_, ?_, Or.inl ⟨out, err, code, rfl, ?_⟩⟩ <;>
          simp [executeCommand, execBody, catchHandler, reconnect, connect, execRaw,
            h, hexec, hce, hn, h2, hrc, execCount, beq_self_eq_true]
    | thrown e2 =>
        refine ⟨?_, ?_, Or.inr ⟨e2, rfl, ?_⟩⟩ <;>
          simp [executeCommand, execBody, catchHandler, reconnect, connect, execRaw,
            h, hexec, hce, hn, h2, hrc, execCount, beq_self_eq_true]
  · simp [h] at hrc
    cases h2 : T.execOutcome (s.execs + 1) with
    | ok out err code =>
        refine ⟨?_, ?_, Or.inl ⟨out, err, code, rfl, ?_⟩⟩ <;>
          simp [executeCommand, execBody, catchHandler, reconnect, connect, execRaw,
            maxReconnectAttempts, h, hc, hexec, hce, h2, hrc, execCount, beq_self_eq_true]
    | thrown e2 =>
        refine ⟨?_, ?_, Or.inr ⟨e2, rfl, ?_⟩⟩ <;>
          simp [executeCommand, execBody, catchHandler, reconnect, connect, execRaw,
            maxReconnectAttempts, h, hc, hexec, hce, h2, hrc, execCount, beq_self_eq_true]

/-- A transport that drops the connection on the first execution and
recovers afterwards. -/
def Tretry : Transport :=
  { connectOutcome := fun _ => none
    execOutcome := fun k =>
      if k = 0 then ExecOutcome.thrown (JsValue.error "connection lost")
      else ExecOutcome.ok "up" "" (some 0) }

/-- Claim C1 witness: the dropped first execution is retried exactly once
after a successful reconnect, and the second result is returned. -/
theorem executeCommand_retry_once_witness :
    (executeCommand Tretry "uptime" sConn).2.execs = 2
    ∧ execCount "uptime" (executeCommand Tretry "uptime" sConn).2.log = 2
    ∧ ((∃ out err code, Tretry.execOutcome 1 = ExecOutcome.ok out err code ∧
          (executeCommand Tretry "uptime" sConn).1 =
            Except.ok (mkResult out err code)) ∨
       (∃ e2, Tretry.execOutcome 1 = ExecOutcome.thrown e2 ∧
          (executeCommand Tretry "uptime" sConn).1 = Except.error e2)) :=
  executeCommand_retry_once Tretry "uptime" sConn (JsValue.error "connection lost")
    (Or.inl rfl) rfl (by decide) (by decide) rfl

/-- A transport whose connect always fails for a non-connection reason. -/
def Tauth : Transport :=
  { connectOutcome := fun _ => some (JsValue.error "auth failure")
    execOutcome := fun _ => ExecOutcome.ok "" "" none }

/-- A transport whose first connect fails with a message mentioning
"connection" and whose later calls succeed. -/
def Tcr : Transport :=
  { connectOutcome := fun k =>
      if k = 0 then some (JsValue.error "connection refused") else none
    execOutcome := fun _ => ExecOutcome.ok "up" "" (some 0) }

/-- Claim C2 counterexample: a lazy `connect()` failure is thrown inside
the `try` of `executeCommand`, so it is caught there instead of being
propagated unchanged.  With cause "auth failure" the caller receives the
re-wrapped "Failed to execute command: ..." error, not the original
ConnectionError; and with cause "connection refused" the wrapped message
contains "connection", so the failure is routed into the
reconnect-and-retry path — two connect calls happen before the command
runs, and the connect failure never reaches the caller at all. -/
theorem executeCommand_lazy_connect_cex :
    isConnected sDis = false
    ∧ (executeCommand Tauth "uptime" sDis).1 ≠
        Except.error (JsValue.error "Failed to connect to SSH server: auth failure")
    ∧ (executeCommand Tauth "uptime" sDis).1 =
        Except.error (JsValue.error
          "Failed to execute command: Failed to connect to SSH server: auth failure")
    ∧ (executeCommand Tcr "uptime" sDis).2.connects = 2
    ∧ (executeCommand Tcr "uptime" sDis).1 =
        Except.ok { stdout := "up", stderr := "", exitCode := 0 } := by
  refine ⟨rfl, ?_, rfl, rfl, rfl⟩
  intro hcontra
  rw [show (executeCommand Tauth "uptime" sDis).1 =
        Except.error (JsValue.error
          "Failed to execute command: Failed to connect to SSH server: auth failure")
      from rfl] at hcontra
  exact absurd (JsValue.error.inj (Except.error.inj hcontra)) (by decide)

/-- Claim C2 (amended): for every `executeCommand` call made while
`connected` is false, `connect()` is attempted exactly once before any
command execution, and the command runs only after it succeeds.  A lazy
`connect()` failure is not propagated unchanged: it is caught by the
command's error handler, which re-wraps it as an ExecutionError
("Failed to execute command: ...", the ConnectionError message preserved
inside, no command executed) when the wrapped message does not contain
"connection", and otherwise routes it into the reconnect-and-retry path
(backoff sleep and a second connect call). -/
theorem executeCommand_lazy_connect (T : Transport) (cmd : String) (s : S)
    (h : s.mgr.connected = false) :
    (T.connectOutcome s.connects = none →
      ∃ t, (executeCommand T cmd s).2.log =
        s.log ++ [Event.sshConnect (authOf s.mgr.config), Event.sshExec cmd] ++ t)
    ∧ (∀ e, T.connectOutcome s.connects = some e →
        strIncludes ("Failed to connect to SSH server: " ++ errString e)
          "connection" = false →
        (executeCommand T cmd s).1 =
          Except.error (JsValue.error ("Failed to execute command: " ++
            ("Failed to connect to SSH server: " ++ errString e)))
        ∧ (executeCommand T cmd s).2.execs = s.execs
        ∧ (executeCommand T cmd s).2.connects = s.connects + 1)
    ∧ (∀ e, T.connectOutcome s.connects = some e →
        strIncludes ("Failed to connect to SSH server: " ++ errString e)
          "connection" = true →
        s.mgr.reconnectAttempts < maxReconnectAttempts →
        ∃ t, (executeCommand T cmd s).2.log =
          s.log ++ [Event.sshConnect (authOf s.mgr.config),
                    Event.sleep (baseBackoffMs * 2 ^ s.mgr.reconnectAttempts),
                    Event.sshConnect (authOf s.mgr.config)] ++ t) := by
  refine ⟨?_, ?_, ?_⟩
  · intro hcn
    cases hx : T.execOutcome s.execs with
    | ok out err code =>
        exact ⟨[], by simp [executeCommand, execBody, execRaw, connect, h, hcn, hx]⟩
    | thrown e2 =>
        have hkey : executeCommand T cmd s =
            catchHandler T cmd e2
              { mgr := { config := s.mgr.config, connected := true
                         reconnectAttempts := 0 }
                connects := s.connects + 1
                execs := s.execs + 1
                log := s.log ++ [Event.sshConnect (authOf s.mgr.config),
                                 Event.sshExec cmd] } := by
          simp [executeCommand, execBody, execRaw, connect, h, hcn, hx]
        obtain ⟨t, ht⟩ := catchHandler_log_mono T cmd e2
          { mgr := { config := s.mgr.config, connected := true
                     reconnectAttempts := 0 }
            connects := s.connects + 1
            execs := s.execs + 1
            log := s.log ++ [Event.sshConnect (authOf s.mgr.config),
                             Event.sshExec cmd] }
        rw [hkey]
        exact ⟨t, by simpa using ht⟩
  · intro e he hno
    refine ⟨?_, ?_, ?_⟩ <;>
      simp [executeCommand, execBody, connect, catchHandler, isConnErr, errString_error,
        h, he, hno]
  · intro e he hyes hlt
    have hn2 : ¬ s.mgr.reconnectAttempts ≥ maxReconnectAttempts := not_le.mpr hlt
    cases hc2 : T.connectOutcome (s.connects + 1) with
    | some e2 =>
        exact ⟨[], by simp [executeCommand, execBody, execRaw, catchHandler,
          reconnect, connect, isConnErr, errString_error, h, he, hyes, hn2, hc2]⟩
    | none =>
        cases hx : T.execOutcome s.execs with
        | ok out err code =>
            exact ⟨[Event.sshExec cmd], by simp [executeCommand, execBody,
              execRaw, catchHandler, reconnect, connect, isConnErr,
              errString_error, h, he, hyes, hn2, hc2, hx]⟩
        | thrown e3 =>
            exact ⟨[Event.sshExec cmd], by simp [executeCommand, execBody,
              execRaw, catchHandler, reconnect, connect, isConnErr,
              errString_error, h, he, hyes, hn2, hc2, hx]⟩

/-- Claim C2 (amended) witness: a "connection refused" lazy-connect
failure is routed into the reconnect path — backoff sleep and second
connect. -/
theorem executeCommand_lazy_connect_witness :
    ∃ t, (executeCommand Tcr "uptime" sDis).2.log =
      [Event.sshConnect (AuthMethod.key "/k"), Event.sleep 1000,
       Event.sshConnect (AuthMethod.key "/k")] ++ t :=
  (executeCommand_lazy_connect Tcr "uptime" sDis rfl).2.2
    (JsValue.error "connection refused") rfl (by decide) (by decide)

/-- `reconnect` keeps the counter within the limit: it increments only
when strictly below it. -/
theorem reconnect_attempts_le (T : Transport) (s : S)
    (h : s.mgr.reconnectAttempts ≤ maxReconnectAttempts) :
    (reconnect T s).2.mgr.reconnectAttempts ≤ maxReconnectAttempts := by
  unfold reconnect
  by_cases h5 : s.mgr.reconnectAttempts ≥ maxReconnectAttempts
  · rw [if_pos h5]
    exact h
  · rw [if_neg h5]
    exact le_trans (connect_attempts_le T _) (Nat.succ_le_of_lt (not_le.mp h5))

/-- `catchHandler` keeps the counter within the limit. -/
theorem catchHandler_attempts_le (T : Transport) (cmd : String) (e : JsValue)
    (s : S) (h : s.mgr.reconnectAttempts ≤ maxReconnectAttempts) :
    (catchHandler T cmd e s).2.mgr.reconnectAttempts ≤ maxReconnectAttempts := by
  unfold catchHandler
  by_cases hc : isConnErr e
  · rw [if_pos hc]
    rcases hr : reconnect T { s with mgr := { s.mgr with connected := false } }
      with ⟨res, s2⟩
    have h2 := reconnect_attempts_le T
      { s with mgr := { s.mgr with connected := false } } h
    rw [hr] at h2
    cases res with
    | error re => exact h2
    | ok u =>
        cases hx : T.execOutcome s2.execs <;>
          simpa [execRaw, hx] using h2
  · rw [if_neg hc]
    exact h

/-- `execBody` keeps the counter within the limit. -/
theorem execBody_attempts_le (T : Transport) (cmd : String) (s : S)
    (h : s.mgr.reconnectAttempts ≤ maxReconnectAttempts) :
    (execBody T cmd s).2.mgr.reconnectAttempts ≤ maxReconnectAttempts := by
  unfold execBody
  cases hb : s.mgr.connected with
  | true =>
      cases hx : T.execOutcome s.execs <;>
        simpa [execRaw, hx] using h
  | false =>
      rcases hr : connect T s with ⟨res, s1⟩
      have h1 := connect_attempts_le T s
      rw [hr] at h1
      have h1' := le_trans h1 h
      cases res with
      | error e => simpa [hb] using h1'
      | ok u =>
          cases hx : T.execOutcome s1.execs <;>
            simpa [hb, execRaw, hx] using h1'

/-- `executeCommand` keeps the counter within the limit. -/
theorem executeCommand_attempts_le (T : Transport) (cmd : String) (s : S)
    (h : s.mgr.reconnectAttempts ≤ maxReconnectAttempts) :
    (executeCommand T cmd s).2.mgr.reconnectAttempts ≤ maxReconnectAttempts := by
  unfold executeCommand
  rcases hb : execBody T cmd s with ⟨res, s1⟩
  have h1 := execBody_attempts_le T cmd s h
  rw [hb] at h1
  cases res with
  | ok r => exact h1
  | error e => exact catchHandler_attempts_le T cmd e s1 h1

/-- `disconnect` does not change the counter. -/
theorem disconnect_attempts (s : S) :
    (disconnect s).mgr.reconnectAttempts = s.mgr.reconnectAttempts := by
  unfold disconnect
  cases h : s.mgr.connected <;> simp [h]

/-- Every single operation keeps the counter within the limit. -/
theorem applyOp_attempts_le (T : Transport) (s : S) (op : Op)
    (h : s.mgr.reconnectAttempts ≤ maxReconnectAttempts) :
    (applyOp T s op).mgr.reconnectAttempts ≤ maxReconnectAttempts := by
  cases op with
  | doConnect => exact le_trans (connect_attempts_le T s) h
  | doReconnect => exact reconnect_attempts_le T s h
  | doExec cmd => exact executeCommand_attempts_le T cmd s h
  | doDisconnect => rw [applyOp, disconnect_attempts]; exact h

/-- Any operation sequence keeps the counter within the limit. -/
theorem run_attempts_le (T : Transport) (ops : List Op) :
    ∀ s : S, s.mgr.reconnectAttempts ≤ maxReconnectAttempts →
      (run T s ops).mgr.reconnectAttempts ≤ maxReconnectAttempts := by
  induction ops with
  | nil => exact fun s h => h
  | cons op ops ih => exact fun s h => ih _ (applyOp_attempts_le T s op h)

/-- A freshly constructed manager has a zero counter. -/
theorem mkManager_attempts_zero (env : Env) (m : Manager)
    (h : mkManager env = Except.ok m) : m.reconnectAttempts = 0 := by
  simp only [mkManager] at h
  split at h
  · cases h
  · split at h
    · cases h
    · split at h
      · cases h
      · cases h
        rfl

/-- Claim C10: in every state reachable from construction by any sequence
of connect, reconnect, executeCommand and disconnect operations, the
reconnect counter stays between 0 and 5 (the lower bound holds because the
counter is a natural number and no operation subtracts from it; the upper
bound because `reconnect` increments only when strictly below 5, and
successful connects reset to 0). -/
theorem reconnectAttempts_invariant (T : Transport) (env : Env) (m : Manager)
    (ops : List Op) (hm : mkManager env = Except.ok m) :
    0 ≤ (run T (init m) ops).mgr.reconnectAttempts
    ∧ (run T (init m) ops).mgr.reconnectAttempts ≤ maxReconnectAttempts :=
  ⟨Nat.zero_le _,
   run_attempts_le T ops (init m)
     (by simp [init, mkManager_attempts_zero env m hm])⟩

/-- Claim C10 witness: a concrete run of all four operations from a
freshly constructed manager stays within the bound. -/
theorem reconnectAttempts_invariant_witness :
    0 ≤ (run Tretry (init mA)
      [Op.doConnect, Op.doExec "uptime", Op.doReconnect,
       Op.doDisconnect]).mgr.reconnectAttempts
    ∧ (run Tretry (init mA)
      [Op.doConnect, Op.doExec "uptime", Op.doReconnect,
       Op.doDisconnect]).mgr.reconnectAttempts ≤ maxReconnectAttempts :=
  reconnectAttempts_invariant Tretry envA mA
    [Op.doConnect, Op.doExec "uptime", Op.doReconnect, Op.doDisconnect] rfl

end SSHManager
